import Mathlib

/-!
Verification development for the flopy calculation service
(src/app/app.py): submission gateway, calculation registry,
selector validation and result-query handlers, file and archive
endpoints.

Modelling conventions:
- A job is identified by a string id. The filesystem state of one
  job directory is modelled by `JobDir` (presence of the
  configuration document and contents of the sentinel marker file
  "state.log"); `none` means the directory does not exist.
- The sqlite registry is the list of inserted rows, in insertion
  order; `fetchone` of the id-lookup is modelled by `List.find?`.
- Python exceptions that no handler catches (FileNotFoundError,
  URLError, json decode errors, FileExistsError from makedirs,
  TypeError from item assignment on a sqlite Row) surface as a
  500 response; they are modelled by a `serverError` outcome.
- Simulation times (totims) are modelled by rationals; the source
  compares Python floats with exact equality, and the claims under
  study depend only on exact-membership semantics, not on rounding.
- External readers (ReadHead, ReadDrawdown, ReadBudget,
  ReadConcentration) are abstract per the spec; a `Reader` records
  the extents they report, and a handler result records the
  arguments of the array read it performs, if any.
-/

/-- Filesystem state of one job directory: does configuration.json
exist, and the contents of the sentinel file state.log if present. -/
structure JobDir where
  configExists : Bool
  stateLog : Option String
deriving DecidableEq, Repr

/-- One row of the `calculations` table, as inserted by
`insert_new_calculation` (state 0 = queued, message NULL). -/
structure CalcRecord where
  calculation_id : String
  state : Int
  message : Option String
  created_at : Nat
  updated_at : Nat
deriving DecidableEq, Repr

/-- Server state touched by the submission gateway: the job
directory of the id under consideration, the registry rows, and the
number of temporary upload files currently in UPLOAD_FOLDER. -/
structure GatewayState where
  dir : Option JobDir
  registry : List CalcRecord
  tempFiles : Nat
deriving DecidableEq, Repr

/-- os.path.exists(configuration.json) for the job directory. -/
def configPresent : Option JobDir → Bool
  | some d => d.configExists
  | none => false

/-- Contents of state.log, when the directory and the file exist. -/
def stateLogOf : Option JobDir → Option String
  | some d => d.stateLog
  | none => none

/-- SELECT ... WHERE calculation_id = ? with fetchone: first row
matching the id, if any (`get_calculation_by_id`). -/
def get_calculation_by_id (registry : List CalcRecord) (cid : String) :
    Option CalcRecord :=
  registry.find? (fun r => r.calculation_id = cid)

/-- INSERT INTO calculations (calculation_id, state, created_at,
updated_at) VALUES (?, 0, now, now)  (`insert_new_calculation`). -/
def insert_new_calculation (cid : String) (now : Nat)
    (registry : List CalcRecord) : List CalcRecord :=
  registry ++ [{ calculation_id := cid, state := 0, message := none,
                 created_at := now, updated_at := now }]

/-- Number of registry rows carrying a given id. -/
def registryCountFor (registry : List CalcRecord) (cid : String) : Nat :=
  (registry.filter (fun r => r.calculation_id = cid)).length

/-- Outcome of fetching and applying one remote schema
(urllib.request.urlopen + json.loads + jsonschema.validate):
the fetch may fail (URLError and friends), the response may fail to
parse as JSON, or the fetched schema is applied to the instance and
yields a verdict. -/
inductive FetchResult where
  | ok (schemaValid : Bool)
  | unreachable
  | malformed
deriving DecidableEq, Repr

/-- The external schema-validator environment: what happens when the
mf schema and the mt schema are fetched and applied. -/
structure ValidatorEnv where
  mfFetch : FetchResult
  mtFetch : FetchResult
deriving DecidableEq, Repr

/-- Shape of a submitted document as far as `is_valid` and
`upload_file` inspect it. `getsWork` is false when
content.get(...).get(...) raises AttributeError (content or its
data field is not a dict); `mtTruthy` is whether content.data.mt is
truthy. -/
structure Content where
  getsWork : Bool
  mtTruthy : Bool
  calculationId : String
deriving DecidableEq, Repr

/-- `is_valid(content)`: the AttributeError from the .get chain is
caught and yields False; around each schema fetch+validate only
jsonschema.ValidationError is caught (yielding False) — a fetch
failure or a malformed schema response escapes as an uncaught
exception, modelled as `.error ()`. The mt schema is only consulted
when the mt sub-document is truthy. -/
def is_valid (c : Content) (env : ValidatorEnv) : Except Unit Bool :=
  if !c.getsWork then .ok false
  else
    match env.mfFetch with
    | .unreachable => .error ()
    | .malformed => .error ()
    | .ok mfOk =>
      if !mfOk then .ok false
      else if c.mtTruthy then
        match env.mtFetch with
        | .unreachable => .error ()
        | .malformed => .error ()
        | .ok mtOk => if !mtOk then .ok false else .ok true
      else .ok true

/-- Response of the POST / handler. `okJson` is the inline branch's
JSON body (status 200, calculation_id, link); `redirect` is the
multipart branch's redirect; `clientError` is flask abort(4xx);
`serverError` is an uncaught exception. -/
inductive SubmitResult where
  | okJson (cid link : String)
  | redirect (loc : String)
  | clientError (code : Nat) (msg : String)
  | serverError
deriving DecidableEq, Repr

/-- Is the response a flask abort with a 4xx client code? -/
def isClientError : SubmitResult → Bool
  | .clientError _ _ => true
  | _ => false

/-- The shared tail of both POST branches once the configuration
file is known absent or present: if it is present nothing is
created; otherwise os.makedirs (which raises FileExistsError if the
bare directory already exists), the json.dump of the document, and
the registry insert. Returns the inline-branch JSON identity. -/
def createAndInsert (cid : String) (now : Nat) (s : GatewayState) :
    SubmitResult × GatewayState :=
  if configPresent s.dir then
    (.okJson cid ("/" ++ cid), s)
  else if s.dir.isSome then
    (.serverError, s)
  else
    (.okJson cid ("/" ++ cid),
     { s with dir := some { configExists := true, stateLog := none },
              registry := insert_new_calculation cid now s.registry })

/-- The application/json branch of `upload_file` (src/app/app.py
lines 228-260). Mirrors the source exactly: when the configuration
file exists, a first `if` removes the directory when state.log is
absent, and a second, NOT else-guarded `if` reads state.log — which
raises FileNotFoundError when the file is (now) absent — and
removes the directory when its text is not the string 200; then the
create-if-absent tail runs and the JSON identity is returned. -/
def upload_file_inline (c : Content) (env : ValidatorEnv) (now : Nat)
    (s : GatewayState) : SubmitResult × GatewayState :=
  match is_valid c env with
  | .error _ => (.serverError, s)
  | .ok false => (.clientError 422 "Content is not valid.", s)
  | .ok true =>
    let cid := c.calculationId
    if configPresent s.dir then
      let s1 := if (stateLogOf s.dir).isNone then { s with dir := none } else s
      match stateLogOf s1.dir with
      | none => (.serverError, s1)
      | some txt =>
        let s2 := if txt ≠ "200" then { s1 with dir := none } else s1
        createAndInsert cid now s2
    else
      createAndInsert cid now s

/-- The multipart/form-data branch of `upload_file` (src/app/app.py
lines 194-226): missing or empty file part aborts 415; the upload
is saved to a temp file; an invalid document removes the temp file
and aborts 422; an existing configuration file aborts 422 (no
idempotent-resubmission logic in this branch); otherwise the
directory is created, the document persisted, a registry row
inserted, and the response is a redirect to /id. The temp file is
only removed on the invalid-document path. -/
def upload_file_multipart (hasFilePart : Bool) (filenameEmpty : Bool)
    (c : Content) (env : ValidatorEnv) (now : Nat) (s : GatewayState) :
    SubmitResult × GatewayState :=
  if !hasFilePart then (.clientError 415 "No file uploaded", s)
  else if filenameEmpty then (.clientError 415 "No selected file", s)
  else
    let s := { s with tempFiles := s.tempFiles + 1 }
    match is_valid c env with
    | .error _ => (.serverError, s)
    | .ok false =>
      (.clientError 422 "This JSON file does not match with the MODFLOW JSON Schema",
       { s with tempFiles := s.tempFiles - 1 })
    | .ok true =>
      let cid := c.calculationId
      if configPresent s.dir then
        (.clientError 422 ("Model with calculationId: " ++ cid ++ " already exits."), s)
      else if s.dir.isSome then
        (.serverError, s)
      else
        (.redirect ("/" ++ cid),
         { s with dir := some { configExists := true, stateLog := none },
                  registry := insert_new_calculation cid now s.registry })

/-- Extents reported by an external result reader: the list of
available totims, the number of layers, and (for the concentration
reader) the number of substances. Queried fresh per request. -/
structure Reader where
  read_times : List ℚ
  read_number_of_layers : Nat
  read_number_of_substances : Nat
deriving DecidableEq, Repr

/-- The permitted result types of the layer-slice and time-series
routes. -/
def permitted_types : List String := ["head", "drawdown"]

/-- Response of GET /id/results/types/t/layers/l/totims/tm.
`readLayer` records the arguments of the reader.read_layer call the
handler performs when every check passes. -/
inductive HDResult where
  | notFoundCalc (cid : String)
  | badType (t : String)
  | badTotim (totim : ℚ) (available : List ℚ)
  | badLayer (nlay : Nat)
  | readLayer (t : String) (totim : ℚ) (layer : Int)
deriving DecidableEq, Repr

/-- `get_results_head_drawdown` (src/app/app.py lines 304-347):
404 when the configuration file is absent; 404 when the type is not
permitted; then per reader: exact membership of totim in
read_times (404 listing the available totims), then
layer >= read_number_of_layers (404 carrying the layer count), then
the read_layer call. The layer arrives as a Python int, so negative
values pass the only (upper-bound) check. -/
def get_results_head_drawdown (cid : String) (configExists : Bool)
    (t : String) (layer : Int) (totim : ℚ) (heads drawdown : Reader) :
    HDResult :=
  if !configExists then .notFoundCalc cid
  else if t ∉ permitted_types then .badType t
  else if t = "head" then
    if totim ∉ heads.read_times then .badTotim totim heads.read_times
    else if layer ≥ (heads.read_number_of_layers : Int) then
      .badLayer heads.read_number_of_layers
    else .readLayer "head" totim layer
  else
    if totim ∉ drawdown.read_times then .badTotim totim drawdown.read_times
    else if layer ≥ (drawdown.read_number_of_layers : Int) then
      .badLayer drawdown.read_number_of_layers
    else .readLayer "drawdown" totim layer

/-- Response of GET /id/timeseries/types/t/layers/l/rows/r/columns/c.
`readTs` records the arguments handed to reader.read_ts. -/
inductive TSResult where
  | notFoundCalc (cid : String)
  | badType (t : String)
  | readTs (t : String) (layer row col : Int)
deriving DecidableEq, Repr

/-- `get_results_time_series` (src/app/app.py lines 350-377):
404 when the configuration file is absent; 404 when the type is not
permitted; then read_ts(layer, row, col) is called directly — the
handler consults no reader extents and performs no bounds check on
layer, row or column. -/
def get_results_time_series (cid : String) (configExists : Bool)
    (t : String) (layer row column : Int) : TSResult :=
  if !configExists then .notFoundCalc cid
  else if t ∉ permitted_types then .badType t
  else if t = "head" then .readTs "head" layer row column
  else .readTs "drawdown" layer row column

/-- Response of GET /id/results/types/budget/totims/tm. -/
inductive BudgetTotimResult where
  | notFoundCalc (cid : String)
  | badTotim (totim : ℚ) (available : List ℚ)
  | readTotim (totim : ℚ)
deriving DecidableEq, Repr

/-- `get_results_budget_by_totim` (src/app/app.py lines 380-399):
404 when the configuration file is absent; exact membership of
totim in the budget reader's read_times (404 listing the available
totims); then the two read_budget_by_totim calls. -/
def get_results_budget_by_totim (cid : String) (configExists : Bool)
    (totim : ℚ) (budget : Reader) : BudgetTotimResult :=
  if !configExists then .notFoundCalc cid
  else if totim ∉ budget.read_times then .badTotim totim budget.read_times
  else .readTotim totim

/-- Response of GET /id/results/types/budget/idx/i. `badIdx`
carries the bounds named in the rejection message: keys are in
between lo and hi. -/
inductive BudgetIdxResult where
  | notFoundCalc (cid : String)
  | badIdx (idx : Int) (lo : Int) (hi : Int)
  | readIdx (idx : Int)
deriving DecidableEq, Repr

/-- `get_results_budget_by_idx` (src/app/app.py lines 402-422):
404 when the configuration file is absent; idx >= len(times) aborts
404 with the range 0 .. len(times)-1; otherwise the two
read_budget_by_idx calls. The idx arrives as a Python int, so a
negative idx passes the only (upper-bound) check. -/
def get_results_budget_by_idx (cid : String) (configExists : Bool)
    (idx : Int) (budget : Reader) : BudgetIdxResult :=
  if !configExists then .notFoundCalc cid
  else if idx ≥ (budget.read_times.length : Int) then
    .badIdx idx 0 ((budget.read_times.length : Int) - 1)
  else .readIdx idx

/-- Response of GET
/id/results/types/concentration/substance/s/layers/l/totims/tm. -/
inductive ConcResult where
  | notFoundCalc (cid : String)
  | badSubstance (substance : Int) (nsub : Nat)
  | badTotim (totim : ℚ) (available : List ℚ)
  | badLayer (nlay : Nat)
  | readLayer (substance : Int) (totim : ℚ) (layer : Int)
deriving DecidableEq, Repr

/-- `get_results_concentration` (src/app/app.py lines 425-454):
404 when the configuration file is absent; substance bound checked
first (substance >= read_number_of_substances), then exact totim
membership (404 listing the available totims), then the layer
bound, then the read_layer call. Negative selectors pass the
upper-bound-only checks. -/
def get_results_concentration (cid : String) (configExists : Bool)
    (substance : Int) (layer : Int) (totim : ℚ) (conc : Reader) :
    ConcResult :=
  if !configExists then .notFoundCalc cid
  else if substance ≥ (conc.read_number_of_substances : Int) then
    .badSubstance substance conc.read_number_of_substances
  else if totim ∉ conc.read_times then .badTotim totim conc.read_times
  else if layer ≥ (conc.read_number_of_layers : Int) then
    .badLayer conc.read_number_of_layers
  else .readLayer substance totim layer

/-- Response of GET /id (calculation details). -/
inductive DetailsResult where
  | notFound (cid : String)
  | serverError
  | jsonDetails (cid : String) (state : Int) (message : Option String)
  | htmlDetails (cid : String)
deriving DecidableEq, Repr

/-- `get_calculation_details_json` (src/app/app.py lines 79-124):
looks the id up in the registry; when the modflow.log file exists
the code assigns into the fetched sqlite Row, which raises
TypeError (Rows are immutable), and when the registry row is
missing the later subscripts of None raise TypeError — both
uncaught, a 500. Otherwise the JSON carries the record's state and
message. The abstract reader calls that fill in times and
layer_values are not selector-checked and are elided. -/
def get_calculation_details_json (cid : String)
    (registry : List CalcRecord) (logExists : Bool) : DetailsResult :=
  if logExists then .serverError
  else
    match get_calculation_by_id registry cid with
    | none => .serverError
    | some r => .jsonDetails cid r.state r.message

/-- `calculation_details` (src/app/app.py lines 266-279): 404 iff
the configuration file is absent; then the JSON body on a
content-negotiated application/json request, else the HTML page.
The registry is only consulted after the existence decision. -/
def calculation_details (cid : String) (configExists : Bool)
    (registry : List CalcRecord) (wantsJson : Bool) (logExists : Bool) :
    DetailsResult :=
  if !configExists then .notFound cid
  else if wantsJson then get_calculation_details_json cid registry logExists
  else .htmlDetails cid

/-- One iteration block of `for block in f` over a binary file:
the bytes split after each newline byte 10, each block keeping its
trailing newline; the final block may lack one. `cur` is the
current line accumulated in reverse. -/
def splitLinesAux (cur : List Nat) : List Nat → List (List Nat)
  | [] => if cur.isEmpty then [] else [cur.reverse]
  | b :: bs =>
    if b = 10 then (b :: cur).reverse :: splitLinesAux [] bs
    else splitLinesAux (b :: cur) bs

/-- The blocks yielded by iterating a binary file's bytes. -/
def splitLines (bytes : List Nat) : List (List Nat) :=
  splitLinesAux [] bytes

/-- `is_binary` (src/app/app.py lines 176-186): iterate the file's
blocks and report binary as soon as a block contains the zero
byte. -/
def is_binary (bytes : List Nat) : Bool :=
  (splitLines bytes).any (fun block => block.contains 0)

/-- Universal-newline translation performed by a Python text-mode
read: each CR LF pair and each lone CR becomes a single LF. -/
def universalNewlines : List Nat → List Nat
  | [] => []
  | 13 :: 10 :: rest => 10 :: universalNewlines rest
  | 13 :: rest => 10 :: universalNewlines rest
  | b :: rest => b :: universalNewlines rest

/-- Is the byte a UTF-8 continuation byte (0x80 to 0xBF)? -/
def utf8Cont (b : Nat) : Bool :=
  decide (128 ≤ b) && decide (b ≤ 191)

/-- Do the bytes form a valid UTF-8 sequence? Python text-mode
reads decode with the UTF-8 codec and raise UnicodeDecodeError on
any ill-formed sequence; this is the well-formedness predicate
(overlong encodings, surrogates and values above U+10FFFF are
ill-formed). -/
def utf8Valid : List Nat → Bool
  | [] => true
  | b :: rest =>
    if b ≤ 127 then utf8Valid rest
    else if 194 ≤ b ∧ b ≤ 223 then
      match rest with
      | c1 :: rest2 => utf8Cont c1 && utf8Valid rest2
      | _ => false
    else if b = 224 then
      match rest with
      | c1 :: c2 :: rest2 =>
        (decide (160 ≤ c1) && decide (c1 ≤ 191)) && utf8Cont c2 &&
          utf8Valid rest2
      | _ => false
    else if 225 ≤ b ∧ b ≤ 236 then
      match rest with
      | c1 :: c2 :: rest2 => utf8Cont c1 && utf8Cont c2 && utf8Valid rest2
      | _ => false
    else if b = 237 then
      match rest with
      | c1 :: c2 :: rest2 =>
        (decide (128 ≤ c1) && decide (c1 ≤ 159)) && utf8Cont c2 &&
          utf8Valid rest2
      | _ => false
    else if 238 ≤ b ∧ b ≤ 239 then
      match rest with
      | c1 :: c2 :: rest2 => utf8Cont c1 && utf8Cont c2 && utf8Valid rest2
      | _ => false
    else if b = 240 then
      match rest with
      | c1 :: c2 :: c3 :: rest2 =>
        (decide (144 ≤ c1) && decide (c1 ≤ 191)) && utf8Cont c2 &&
          utf8Cont c3 && utf8Valid rest2
      | _ => false
    else if 241 ≤ b ∧ b ≤ 243 then
      match rest with
      | c1 :: c2 :: c3 :: rest2 =>
        utf8Cont c1 && utf8Cont c2 && utf8Cont c3 && utf8Valid rest2
      | _ => false
    else if b = 244 then
      match rest with
      | c1 :: c2 :: c3 :: rest2 =>
        (decide (128 ≤ c1) && decide (c1 ≤ 143)) && utf8Cont c2 &&
          utf8Cont c3 && utf8Valid rest2
      | _ => false
    else false

/-- Response of GET /id/files/name. `content` carries the returned
text as the UTF-8 bytes of the decoded, newline-translated string;
`serverError` is the uncaught UnicodeDecodeError of a text-mode
read of ill-formed bytes. -/
inductive FileResult where
  | notFound (name : String)
  | binaryMsg (name : String)
  | content (name : String) (text : List Nat)
  | serverError
deriving DecidableEq, Repr

/-- `get_file` (src/app/app.py lines 282-301): 404 when the file is
absent; a binary file (per is_binary) answers with the
cannot-be-shown message and withholds the content; otherwise the
file is read in text mode — ill-formed UTF-8 raises an uncaught
UnicodeDecodeError (500), and otherwise the decoded content is
returned with universal-newline translation applied (CR and LF are
ASCII, so translating before or after decoding agrees). -/
def get_file (fileExists : Bool) (name : String) (bytes : List Nat) :
    FileResult :=
  if !fileExists then .notFound name
  else if is_binary bytes then .binaryMsg name
  else if utf8Valid bytes then .content name (universalNewlines bytes)
  else .serverError

/-- Python str.endswith(suffix), as a suffix test on the underlying
character sequence. -/
def endswith (suffix name : String) : Bool :=
  suffix.data.isSuffixOf name.data

/-- `get_download_model` (src/app/app.py lines 473-490): after
chdir into the job directory, os.walk enumerates every
(subdirectory, filename) pair; each filename not ending in .json is
passed BARE to ZipFile.write, which opens the path relative to the
job directory's top level — succeeding (and archiving the top-level
file of that name) only when such a top-level file exists, and
raising FileNotFoundError otherwise. `entries` lists the walk's
(subdirectory components, filename) pairs in order; the result is
the archive's member names, or an error when a write raises. -/
def get_download_model (entries : List (List String × String)) :
    Except Unit (List String) :=
  let topLevel := (entries.filter (fun e => e.1 = [])).map (fun e => e.2)
  entries.foldl
    (fun acc e =>
      match acc with
      | .error u => .error u
      | .ok names =>
        if endswith ".json" e.2 then .ok names
        else if topLevel.contains e.2 then .ok (names ++ [e.2])
        else .error ())
    (.ok [])

/-- C1: evaluating the inline resubmission at a state where the
configuration file exists, state.log is absent, and one registry
row is present: the code removes the directory and then raises
FileNotFoundError reading state.log (a 500); the directory is not
recreated, no fresh Queued row is inserted, and no identity is
returned — contrary to the claimed recreate/persist/insert/return
behaviour. -/
theorem inline_resubmit_no_marker_server_error :
    upload_file_inline
      { getsWork := true, mtTruthy := false, calculationId := "abc" }
      { mfFetch := .ok true, mtFetch := .ok true } 2
      { dir := some { configExists := true, stateLog := none },
        registry := [{ calculation_id := "abc", state := 0, message := none,
                       created_at := 1, updated_at := 1 }],
        tempFiles := 0 }
      = (.serverError,
         { dir := none,
           registry := [{ calculation_id := "abc", state := 0, message := none,
                          created_at := 1, updated_at := 1 }],
           tempFiles := 0 }) := by
  rfl

/-- C2: an inline resubmission of an id whose configuration file
exists and whose state.log reads the success code 200 is
idempotent: the state is untouched (directory not deleted or
recreated, no registry insert) and the JSON identity returned is
the one a fresh original submission returns. -/
theorem inline_resubmit_success_marker_idempotent
    (c : Content) (env : ValidatorEnv) (now : Nat) (s : GatewayState)
    (d : JobDir) (hdir : s.dir = some d) (hcfg : d.configExists = true)
    (hlog : d.stateLog = some "200")
    (hval : is_valid c env = .ok true) :
    upload_file_inline c env now s
      = (.okJson c.calculationId ("/" ++ c.calculationId), s) ∧
    (upload_file_inline c env now
        { dir := none, registry := [], tempFiles := 0 }).1
      = .okJson c.calculationId ("/" ++ c.calculationId) := by
  constructor
  · simp [upload_file_inline, hval, hdir, hcfg, hlog, configPresent,
          stateLogOf, createAndInsert]
  · simp [upload_file_inline, hval, configPresent, stateLogOf,
          createAndInsert]

/-- C2 witness: concrete instance of the idempotent resubmission. -/
theorem inline_resubmit_success_marker_idempotent_witness :
    upload_file_inline
      { getsWork := true, mtTruthy := false, calculationId := "abc" }
      { mfFetch := .ok true, mtFetch := .ok true } 5
      { dir := some { configExists := true, stateLog := some "200" },
        registry := [], tempFiles := 0 }
      = (.okJson "abc" "/abc",
         { dir := some { configExists := true, stateLog := some "200" },
           registry := [], tempFiles := 0 }) :=
  (inline_resubmit_success_marker_idempotent
    { getsWork := true, mtTruthy := false, calculationId := "abc" }
    { mfFetch := .ok true, mtFetch := .ok true } 5
    { dir := some { configExists := true, stateLog := some "200" },
      registry := [], tempFiles := 0 }
    { configExists := true, stateLog := some "200" }
    rfl rfl rfl rfl).1

/-- C3 counterexample: at a state whose directory exists with a
success marker, the same valid document submitted uploaded-file
fashion is rejected with a 422 already-exists client error while
submitted inline it succeeds idempotently — the two delivery shapes
do not share the resubmission behaviour the claim asserts. -/
theorem delivery_shapes_resubmit_disagree :
    (upload_file_multipart true false
        { getsWork := true, mtTruthy := false, calculationId := "abc" }
        { mfFetch := .ok true, mtFetch := .ok true } 0
        { dir := some { configExists := true, stateLog := some "200" },
          registry := [], tempFiles := 0 }).1
      = .clientError 422 "Model with calculationId: abc already exits." ∧
    (upload_file_inline
        { getsWork := true, mtTruthy := false, calculationId := "abc" }
        { mfFetch := .ok true, mtFetch := .ok true } 0
        { dir := some { configExists := true, stateLog := some "200" },
          registry := [], tempFiles := 0 }).1
      = .okJson "abc" "/abc" := by
  constructor <;> rfl

/-- C3 amended: the two delivery shapes run the same validation and,
for a fresh id with a valid document, produce the same directory,
configuration file and Queued registry record, both answering with
the link of the id (a redirect vs a JSON body); their behaviour on
an existing directory differs. -/
theorem delivery_shapes_fresh_agree
    (c : Content) (env : ValidatorEnv) (now : Nat) (s : GatewayState)
    (hfresh : s.dir = none) (hval : is_valid c env = .ok true) :
    (upload_file_multipart true false c env now s).1
      = .redirect ("/" ++ c.calculationId) ∧
    (upload_file_inline c env now s).1
      = .okJson c.calculationId ("/" ++ c.calculationId) ∧
    (upload_file_multipart true false c env now s).2.dir
      = (upload_file_inline c env now s).2.dir ∧
    (upload_file_multipart true false c env now s).2.registry
      = (upload_file_inline c env now s).2.registry := by
  refine ⟨?_, ?_, ?_, ?_⟩ <;>
    simp [upload_file_multipart, upload_file_inline, hval, hfresh,
          configPresent, createAndInsert]

/-- C3 witness: concrete fresh-state agreement of both shapes. -/
theorem delivery_shapes_fresh_agree_witness :
    (upload_file_multipart true false
        { getsWork := true, mtTruthy := false, calculationId := "abc" }
        { mfFetch := .ok true, mtFetch := .ok true } 3
        { dir := none, registry := [], tempFiles := 0 }).1
      = .redirect "/abc" ∧
    (upload_file_inline
        { getsWork := true, mtTruthy := false, calculationId := "abc" }
        { mfFetch := .ok true, mtFetch := .ok true } 3
        { dir := none, registry := [], tempFiles := 0 }).1
      = .okJson "abc" "/abc" :=
  ⟨(delivery_shapes_fresh_agree
      { getsWork := true, mtTruthy := false, calculationId := "abc" }
      { mfFetch := .ok true, mtFetch := .ok true } 3
      { dir := none, registry := [], tempFiles := 0 } rfl rfl).1,
   (delivery_shapes_fresh_agree
      { getsWork := true, mtTruthy := false, calculationId := "abc" }
      { mfFetch := .ok true, mtFetch := .ok true } 3
      { dir := none, registry := [], tempFiles := 0 } rfl rfl).2.1⟩

/-- C4 counterexample: when the mf schema fetch raises (validator
unreachable), the inline submission surfaces an uncaught exception
(server error), not the client error the claim asserts; no
directory or registry entry is created. -/
theorem validator_unreachable_not_client_error :
    is_valid { getsWork := true, mtTruthy := false, calculationId := "abc" }
        { mfFetch := .unreachable, mtFetch := .ok true } = .error () ∧
    isClientError
      (upload_file_inline
          { getsWork := true, mtTruthy := false, calculationId := "abc" }
          { mfFetch := .unreachable, mtFetch := .ok true } 0
          { dir := none, registry := [], tempFiles := 0 }).1 = false ∧
    (upload_file_inline
        { getsWork := true, mtTruthy := false, calculationId := "abc" }
        { mfFetch := .unreachable, mtFetch := .ok true } 0
        { dir := none, registry := [], tempFiles := 0 }).2
      = { dir := none, registry := [], tempFiles := 0 } := by
  refine ⟨rfl, rfl, rfl⟩

/-- C4 amended: a schema-validation failure of the document rejects
the inline submission with the 422 client error and leaves the
state untouched; an unreachable validator or malformed schema
response instead propagates as an uncaught exception (server
error), also leaving the state untouched. In neither failure case
is a registry entry or a directory created. -/
theorem validation_failure_no_side_effects
    (c : Content) (env : ValidatorEnv) (now : Nat) (s : GatewayState) :
    (is_valid c env = .ok false →
      upload_file_inline c env now s
        = (.clientError 422 "Content is not valid.", s)) ∧
    (is_valid c env = .error () →
      upload_file_inline c env now s = (.serverError, s)) := by
  constructor <;> intro h <;> simp [upload_file_inline, h]

/-- C4 witness: concrete instances of both failure modes. -/
theorem validation_failure_no_side_effects_witness :
    upload_file_inline
      { getsWork := false, mtTruthy := false, calculationId := "x" }
      { mfFetch := .ok true, mtFetch := .ok true } 0
      { dir := none, registry := [], tempFiles := 0 }
      = (.clientError 422 "Content is not valid.",
         { dir := none, registry := [], tempFiles := 0 }) ∧
    upload_file_inline
      { getsWork := true, mtTruthy := false, calculationId := "x" }
      { mfFetch := .malformed, mtFetch := .ok true } 0
      { dir := none, registry := [], tempFiles := 0 }
      = (.serverError, { dir := none, registry := [], tempFiles := 0 }) :=
  ⟨(validation_failure_no_side_effects
      { getsWork := false, mtTruthy := false, calculationId := "x" }
      { mfFetch := .ok true, mtFetch := .ok true } 0
      { dir := none, registry := [], tempFiles := 0 }).1 rfl,
   (validation_failure_no_side_effects
      { getsWork := true, mtTruthy := false, calculationId := "x" }
      { mfFetch := .malformed, mtFetch := .ok true } 0
      { dir := none, registry := [], tempFiles := 0 }).2 rfl⟩

/-- Does a layer-slice response perform an array read? -/
def HDResult.isRead : HDResult → Bool
  | .readLayer _ _ _ => true
  | _ => false

/-- C5 counterexample: a head request with layer 5 >= the reported
layer count 1 and a totim (2) absent from the reported times [1] is
rejected with the totim message, not the layer-bound message: the
layer rejection is not independent of the time selector. -/
theorem layer_reject_not_time_independent :
    get_results_head_drawdown "a" true "head" 5 2
        { read_times := [1], read_number_of_layers := 1,
          read_number_of_substances := 0 }
        { read_times := [], read_number_of_layers := 0,
          read_number_of_substances := 0 }
      = .badTotim 2 [1] ∧
    get_results_head_drawdown "a" true "head" 5 2
        { read_times := [1], read_number_of_layers := 1,
          read_number_of_substances := 0 }
        { read_times := [], read_number_of_layers := 0,
          read_number_of_substances := 0 }
      ≠ .badLayer 1 := by
  refine ⟨by rfl, by decide⟩

/-- The head branch of the layer-slice handler, with the existence
and permitted-type tests discharged. -/
theorem get_results_head_eq
    (cid : String) (layer : Int) (totim : ℚ) (heads drawdown : Reader) :
    get_results_head_drawdown cid true "head" layer totim heads drawdown
      = if totim ∉ heads.read_times then .badTotim totim heads.read_times
        else if layer ≥ (heads.read_number_of_layers : Int) then
          .badLayer heads.read_number_of_layers
        else .readLayer "head" totim layer := by
  simp [get_results_head_drawdown, permitted_types]

/-- The drawdown branch of the layer-slice handler, with the
existence and permitted-type tests discharged. -/
theorem get_results_drawdown_eq
    (cid : String) (layer : Int) (totim : ℚ) (heads drawdown : Reader) :
    get_results_head_drawdown cid true "drawdown" layer totim heads drawdown
      = if totim ∉ drawdown.read_times then
          .badTotim totim drawdown.read_times
        else if layer ≥ (drawdown.read_number_of_layers : Int) then
          .badLayer drawdown.read_number_of_layers
        else .readLayer "drawdown" totim layer := by
  simp [get_results_head_drawdown, permitted_types]

/-- C5 amended: for a layer-slice request with layer >= the
reported layer count, no array read is ever performed — the request
is rejected regardless of the time selector — and when the time
selector is valid the rejection is exactly the layer-bound message;
when it is invalid the rejection is the totim message instead. -/
theorem layer_out_of_bounds_never_read
    (cid : String) (layer : Int) (totim : ℚ) (heads drawdown : Reader) :
    (layer ≥ (heads.read_number_of_layers : Int) →
      (get_results_head_drawdown cid true "head" layer totim heads
          drawdown).isRead = false ∧
      (totim ∈ heads.read_times →
        get_results_head_drawdown cid true "head" layer totim heads drawdown
          = .badLayer heads.read_number_of_layers)) ∧
    (layer ≥ (drawdown.read_number_of_layers : Int) →
      (get_results_head_drawdown cid true "drawdown" layer totim heads
          drawdown).isRead = false ∧
      (totim ∈ drawdown.read_times →
        get_results_head_drawdown cid true "drawdown" layer totim heads
          drawdown = .badLayer drawdown.read_number_of_layers)) := by
  constructor
  · intro h
    rw [get_results_head_eq]
    constructor
    · by_cases ht : totim ∈ heads.read_times
      · rw [if_neg (not_not_intro ht), if_pos h]; rfl
      · rw [if_pos ht]; rfl
    · intro ht
      rw [if_neg (not_not_intro ht), if_pos h]
  · intro h
    rw [get_results_drawdown_eq]
    constructor
    · by_cases ht : totim ∈ drawdown.read_times
      · rw [if_neg (not_not_intro ht), if_pos h]; rfl
      · rw [if_pos ht]; rfl
    · intro ht
      rw [if_neg (not_not_intro ht), if_pos h]

/-- C5 witness: with a valid totim and layer 3 >= layer count 2,
the layer-bound rejection is produced and no array is read. -/
theorem layer_out_of_bounds_never_read_witness :
    (get_results_head_drawdown "a" true "head" 3 1
        { read_times := [1], read_number_of_layers := 2,
          read_number_of_substances := 0 }
        { read_times := [], read_number_of_layers := 0,
          read_number_of_substances := 0 }).isRead = false ∧
    get_results_head_drawdown "a" true "head" 3 1
        { read_times := [1], read_number_of_layers := 2,
          read_number_of_substances := 0 }
        { read_times := [], read_number_of_layers := 0,
          read_number_of_substances := 0 }
      = .badLayer 2 :=
  have h := (layer_out_of_bounds_never_read "a" 3 1
    { read_times := [1], read_number_of_layers := 2,
      read_number_of_substances := 0 }
    { read_times := [], read_number_of_layers := 0,
      read_number_of_substances := 0 }).1 (by decide)
  ⟨h.1, h.2 (by decide)⟩

/-- C6 counterexample: a negative budget index (-1) passes the only
(upper-bound) check and reaches the array read instead of being
rejected; a concentration request with negative substance (-2) and
negative layer (-1) passes both upper-bound checks and reaches the
array read; and the time-series query performs no bounds check at
all — layer -5, row 1000, column 7 go straight to the reader. -/
theorem negative_selectors_not_rejected :
    get_results_budget_by_idx "a" true (-1)
        { read_times := [1], read_number_of_layers := 0,
          read_number_of_substances := 0 }
      = .readIdx (-1) ∧
    get_results_concentration "a" true (-2) (-1) 1
        { read_times := [1], read_number_of_layers := 1,
          read_number_of_substances := 1 }
      = .readLayer (-2) 1 (-1) ∧
    get_results_time_series "a" true "head" (-5) 1000 7
      = .readTs "head" (-5) 1000 7 := by
  refine ⟨by rfl, by rfl, by rfl⟩

/-- C6 amended: selector checks are upper-bound only. The budget
index query rejects exactly when idx >= the number of reported
times, its rejection carrying the range 0 .. seriesLength-1, and
any smaller idx — negative values included — reaches the read. The
concentration substance check rejects exactly when substance >= the
reported substance count, and the layer checks of the concentration
and head/drawdown handlers (reached once the earlier selectors
pass) reject exactly when layer >= the reported layer count, all
other values — negative ones included — reaching the read. The
time-series query bounds-checks nothing: every layer, row and
column reach the reader unchecked. -/
theorem selector_checks_upper_bound_only
    (cid : String) (idx : Int) (budget : Reader) (layer row col : Int)
    (substance : Int) (totim : ℚ) (heads drawdown conc : Reader) :
    (idx ≥ (budget.read_times.length : Int) →
      get_results_budget_by_idx cid true idx budget
        = .badIdx idx 0 ((budget.read_times.length : Int) - 1)) ∧
    (idx < (budget.read_times.length : Int) →
      get_results_budget_by_idx cid true idx budget = .readIdx idx) ∧
    get_results_time_series cid true "head" layer row col
      = .readTs "head" layer row col ∧
    get_results_time_series cid true "drawdown" layer row col
      = .readTs "drawdown" layer row col ∧
    (substance ≥ (conc.read_number_of_substances : Int) →
      get_results_concentration cid true substance layer totim conc
        = .badSubstance substance conc.read_number_of_substances) ∧
    (substance < (conc.read_number_of_substances : Int) →
      totim ∈ conc.read_times →
      layer ≥ (conc.read_number_of_layers : Int) →
      get_results_concentration cid true substance layer totim conc
        = .badLayer conc.read_number_of_layers) ∧
    (substance < (conc.read_number_of_substances : Int) →
      totim ∈ conc.read_times →
      layer < (conc.read_number_of_layers : Int) →
      get_results_concentration cid true substance layer totim conc
        = .readLayer substance totim layer) ∧
    (totim ∈ heads.read_times →
      layer ≥ (heads.read_number_of_layers : Int) →
      get_results_head_drawdown cid true "head" layer totim heads drawdown
        = .badLayer heads.read_number_of_layers) ∧
    (totim ∈ heads.read_times →
      layer < (heads.read_number_of_layers : Int) →
      get_results_head_drawdown cid true "head" layer totim heads drawdown
        = .readLayer "head" totim layer) ∧
    (totim ∈ drawdown.read_times →
      layer ≥ (drawdown.read_number_of_layers : Int) →
      get_results_head_drawdown cid true "drawdown" layer totim heads drawdown
        = .badLayer drawdown.read_number_of_layers) ∧
    (totim ∈ drawdown.read_times →
      layer < (drawdown.read_number_of_layers : Int) →
      get_results_head_drawdown cid true "drawdown" layer totim heads drawdown
        = .readLayer "drawdown" totim layer) := by
  refine ⟨fun h => ?_, fun h => ?_, rfl, rfl, fun hs => ?_,
    fun hs ht hl => ?_, fun hs ht hl => ?_, fun ht hl => ?_,
    fun ht hl => ?_, fun ht hl => ?_, fun ht hl => ?_⟩
  · simp [get_results_budget_by_idx, h]
  · simp [get_results_budget_by_idx, not_le.mpr h]
  · unfold get_results_concentration
    rw [if_neg (by decide : ¬((!true) = true)), if_pos hs]
  · unfold get_results_concentration
    rw [if_neg (by decide : ¬((!true) = true)), if_neg (not_le.mpr hs),
        if_neg (not_not_intro ht), if_pos hl]
  · unfold get_results_concentration
    rw [if_neg (by decide : ¬((!true) = true)), if_neg (not_le.mpr hs),
        if_neg (not_not_intro ht), if_neg (not_le.mpr hl)]
  · rw [get_results_head_eq, if_neg (not_not_intro ht), if_pos hl]
  · rw [get_results_head_eq, if_neg (not_not_intro ht),
        if_neg (not_le.mpr hl)]
  · rw [get_results_drawdown_eq, if_neg (not_not_intro ht), if_pos hl]
  · rw [get_results_drawdown_eq, if_neg (not_not_intro ht),
        if_neg (not_le.mpr hl)]

/-- C6 witness: index 3 against one reported time is rejected with
the range 0 .. 0; substance 5 against one reported substance is
rejected carrying the count; and negative substance -2 with
negative layer -1 pass the concentration checks and reach the
read. -/
theorem selector_checks_upper_bound_only_witness :
    get_results_budget_by_idx "a" true 3
        { read_times := [1], read_number_of_layers := 0,
          read_number_of_substances := 0 }
      = .badIdx 3 0 0 ∧
    get_results_concentration "a" true 5 0 1
        { read_times := [1], read_number_of_layers := 1,
          read_number_of_substances := 1 }
      = .badSubstance 5 1 ∧
    get_results_concentration "a" true (-2) (-1) 1
        { read_times := [1], read_number_of_layers := 1,
          read_number_of_substances := 1 }
      = .readLayer (-2) 1 (-1) :=
  ⟨(selector_checks_upper_bound_only "a" 3
      { read_times := [1], read_number_of_layers := 0,
        read_number_of_substances := 0 } 0 0 0 0 1
      { read_times := [1], read_number_of_layers := 1,
        read_number_of_substances := 1 }
      { read_times := [1], read_number_of_layers := 1,
        read_number_of_substances := 1 }
      { read_times := [1], read_number_of_layers := 1,
        read_number_of_substances := 1 }).1 (by decide),
   (selector_checks_upper_bound_only "a" 3
      { read_times := [1], read_number_of_layers := 0,
        read_number_of_substances := 0 } 0 0 0 5 1
      { read_times := [1], read_number_of_layers := 1,
        read_number_of_substances := 1 }
      { read_times := [1], read_number_of_layers := 1,
        read_number_of_substances := 1 }
      { read_times := [1], read_number_of_layers := 1,
        read_number_of_substances := 1 }).2.2.2.2.1 (by decide),
   (selector_checks_upper_bound_only "a" 3
      { read_times := [1], read_number_of_layers := 0,
        read_number_of_substances := 0 } (-1) 0 0 (-2) 1
      { read_times := [1], read_number_of_layers := 1,
        read_number_of_substances := 1 }
      { read_times := [1], read_number_of_layers := 1,
        read_number_of_substances := 1 }
      { read_times := [1], read_number_of_layers := 1,
        read_number_of_substances := 1 }).2.2.2.2.2.2.1
     (by decide) (by decide) (by decide)⟩

/-- C7: a requested totim absent (exact equality) from the reported
time list makes the head and drawdown layer-slice queries, the
budget-at-time query, and — once the substance bound passes — the
concentration query answer 404 carrying exactly the reported time
list. -/
theorem missing_totim_rejected_with_times
    (cid : String) (layer substance : Int) (totim : ℚ)
    (heads drawdown budget conc : Reader)
    (h1 : totim ∉ heads.read_times) (h2 : totim ∉ drawdown.read_times)
    (h3 : totim ∉ budget.read_times) (h4 : totim ∉ conc.read_times)
    (h5 : substance < (conc.read_number_of_substances : Int)) :
    get_results_head_drawdown cid true "head" layer totim heads drawdown
      = .badTotim totim heads.read_times ∧
    get_results_head_drawdown cid true "drawdown" layer totim heads drawdown
      = .badTotim totim drawdown.read_times ∧
    get_results_budget_by_totim cid true totim budget
      = .badTotim totim budget.read_times ∧
    get_results_concentration cid true substance layer totim conc
      = .badTotim totim conc.read_times := by
  refine ⟨?_, ?_, ?_, ?_⟩
  · simp [get_results_head_drawdown, permitted_types, h1]
  · simp [get_results_head_drawdown, permitted_types, h2]
  · simp [get_results_budget_by_totim, h3]
  · simp [get_results_concentration, h4, not_le.mpr h5]

/-- C7 witness: totim 5 against reported times [1, 2] is rejected
by all four queries with the full reported list. -/
theorem missing_totim_rejected_with_times_witness :
    get_results_head_drawdown "a" true "head" 0 5
        { read_times := [1, 2], read_number_of_layers := 1,
          read_number_of_substances := 0 }
        { read_times := [1, 2], read_number_of_layers := 1,
          read_number_of_substances := 0 }
      = .badTotim 5 [1, 2] ∧
    get_results_concentration "a" true 0 0 5
        { read_times := [1, 2], read_number_of_layers := 1,
          read_number_of_substances := 1 }
      = .badTotim 5 [1, 2] :=
  have h := missing_totim_rejected_with_times "a" 0 0 5
    { read_times := [1, 2], read_number_of_layers := 1,
      read_number_of_substances := 0 }
    { read_times := [1, 2], read_number_of_layers := 1,
      read_number_of_substances := 0 }
    { read_times := [1, 2], read_number_of_layers := 1,
      read_number_of_substances := 0 }
    { read_times := [1, 2], read_number_of_layers := 1,
      read_number_of_substances := 1 }
    (by decide) (by decide) (by decide) (by decide) (by decide)
  ⟨h.1, h.2.2.2⟩

/-- A byte occurs in some block yielded by the file iteration iff
it occurs in the accumulated current line or the remaining bytes:
splitting at newline bytes loses no byte. -/
theorem splitLinesAux_mem (a : Nat) (bs : List Nat) : ∀ cur : List Nat,
    (∃ block ∈ splitLinesAux cur bs, a ∈ block) ↔ (a ∈ cur ∨ a ∈ bs) := by
  induction bs with
  | nil =>
    intro cur
    cases cur with
    | nil => simp [splitLinesAux]
    | cons c cs =>
      simp [splitLinesAux, List.mem_reverse]
      tauto
  | cons b bs ih =>
    intro cur
    by_cases hb : b = 10
    · simp only [splitLinesAux, if_pos hb]
      constructor
      · rintro ⟨block, hblock, ha⟩
        rcases List.mem_cons.mp hblock with rfl | hblock
        · have h2 := List.mem_cons.mp (List.mem_reverse.mp ha)
          simp only [List.mem_cons]
          tauto
        · have h3 := (ih []).mp ⟨block, hblock, ha⟩
          simp only [List.not_mem_nil, false_or] at h3
          simp only [List.mem_cons]
          tauto
      · intro h
        simp only [List.mem_cons] at h
        rcases h with h | h | h
        · exact ⟨(b :: cur).reverse, List.mem_cons_self _ _,
            List.mem_reverse.mpr (List.mem_cons_of_mem _ h)⟩
        · subst h
          exact ⟨(a :: cur).reverse, List.mem_cons_self _ _,
            List.mem_reverse.mpr (List.mem_cons_self _ _)⟩
        · obtain ⟨block, hblock, ha⟩ := (ih []).mpr (Or.inr h)
          exact ⟨block, List.mem_cons_of_mem _ hblock, ha⟩
    · simp only [splitLinesAux, if_neg hb]
      rw [ih (b :: cur)]
      simp only [List.mem_cons]
      tauto

/-- `is_binary` answers true exactly when the file contains the
zero byte, wherever it sits. -/
theorem is_binary_iff (bytes : List Nat) :
    is_binary bytes = true ↔ 0 ∈ bytes := by
  unfold is_binary splitLines
  rw [List.any_eq_true]
  constructor
  · rintro ⟨block, hb, hc⟩
    have hmem : 0 ∈ block := List.elem_iff.mp hc
    have := (splitLinesAux_mem 0 bytes []).mp ⟨block, hb, hmem⟩
    simpa using this
  · intro h
    obtain ⟨block, hb, hc⟩ := (splitLinesAux_mem 0 bytes []).mpr (Or.inr h)
    exact ⟨block, hb, List.elem_iff.mpr hc⟩

/-- Universal-newline translation is the identity on content with
no carriage return. -/
theorem universalNewlines_id (bs : List Nat) (h : 13 ∉ bs) :
    universalNewlines bs = bs := by
  induction bs with
  | nil => rfl
  | cons b rest ih =>
    have hb : ¬b = 13 := by
      intro e
      exact h (by rw [e]; exact List.mem_cons_self _ _)
    have hrest : 13 ∉ rest := fun hm => h (List.mem_cons_of_mem _ hm)
    rw [show universalNewlines (b :: rest) = b :: universalNewlines rest by
          cases rest with
          | nil => simp [universalNewlines, hb]
          | cons c cs => simp [universalNewlines, hb],
        ih hrest]

/-- C8 counterexample: the zero-free file [65, 13, 10] (the text
A CR LF) is not returned verbatim — the text-mode read translates
it to [65, 10] — and the zero-free file [255] is not returned at
all: its text-mode read raises UnicodeDecodeError (500). The
claimed verbatim-iff-no-zero-byte equivalence fails in the
only-if-zero-free direction. -/
theorem get_file_zero_free_not_verbatim :
    ([65, 13, 10] : List Nat).contains 0 = false ∧
    get_file true "f" [65, 13, 10] = .content "f" [65, 10] ∧
    get_file true "f" [65, 13, 10] ≠ .content "f" [65, 13, 10] ∧
    ([255] : List Nat).contains 0 = false ∧
    get_file true "g" [255] = .serverError := by
  refine ⟨rfl, rfl, by decide, rfl, rfl⟩

/-- C8 amended: the file endpoint reports the binary message and
withholds the content exactly when the file contains a zero byte;
a zero-free file is read in text mode, so ill-formed UTF-8 yields
an uncaught decode error (500), well-formed content is returned
with universal newlines applied, and the content comes back
verbatim exactly when it moreover decodes and contains no carriage
return. -/
theorem get_file_text_mode_content (name : String) (bytes : List Nat) :
    (get_file true name bytes = .binaryMsg name ↔ 0 ∈ bytes) ∧
    (0 ∉ bytes → utf8Valid bytes = false →
      get_file true name bytes = .serverError) ∧
    (0 ∉ bytes → utf8Valid bytes = true →
      get_file true name bytes = .content name (universalNewlines bytes)) ∧
    (0 ∉ bytes → utf8Valid bytes = true → 13 ∉ bytes →
      get_file true name bytes = .content name bytes) := by
  have hbin : 0 ∉ bytes → is_binary bytes = false := by
    intro h
    cases heq : is_binary bytes
    · rfl
    · exact absurd ((is_binary_iff bytes).mp heq) h
  refine ⟨?_, fun h hv => ?_, fun h hv => ?_, fun h hv hcr => ?_⟩
  · by_cases h : 0 ∈ bytes
    · simp [get_file, (is_binary_iff bytes).mpr h, h]
    · have hne : get_file true name bytes ≠ .binaryMsg name := by
        unfold get_file
        rw [if_neg (by decide : ¬((!true) = true)),
            if_neg (by simp [hbin h])]
        split_ifs <;> simp
      simp [hne, h]
  · unfold get_file
    rw [if_neg (by decide : ¬((!true) = true)), if_neg (by simp [hbin h]),
        if_neg (by simp [hv])]
  · unfold get_file
    rw [if_neg (by decide : ¬((!true) = true)), if_neg (by simp [hbin h]),
        if_pos hv]
  · unfold get_file
    rw [if_neg (by decide : ¬((!true) = true)), if_neg (by simp [hbin h]),
        if_pos hv, universalNewlines_id bytes hcr]

/-- C8 witness: zero-free ASCII without carriage returns comes back
verbatim; a file with a zero byte is reported binary. -/
theorem get_file_text_mode_content_witness :
    get_file true "f" [72, 105] = .content "f" [72, 105] ∧
    get_file true "g" [1, 0, 2] = .binaryMsg "g" :=
  ⟨(get_file_text_mode_content "f" [72, 105]).2.2.2 (by decide) (by decide)
      (by decide),
   (get_file_text_mode_content "g" [1, 0, 2]).1.mpr (by decide)⟩

/-- C9: evaluating the archive construction on a job directory
holding a top-level configuration.json and a subdirectory file
sub/output.dat: the bare-filename write of output.dat cannot be
opened from the top level, so the endpoint errors and no archive
containing the subdirectory file is produced — while the same file
placed at top level is archived. The claimed inclusion of
subdirectory files fails. -/
theorem download_subdir_file_not_archived :
    get_download_model [([], "configuration.json"), (["sub"], "output.dat")]
      = .error () ∧
    get_download_model [([], "configuration.json"), ([], "output.dat")]
      = .ok ["output.dat"] := by
  constructor <;> rfl

/-- C10: a job is deemed to exist by the metadata and result
handlers iff the configuration file is present; the registry —
universally quantified here — never influences the existence
decision, so a registry record without a configuration file still
answers NotFound. -/
theorem job_existence_is_config_presence
    (cid : String) (cfg : Bool) (registry : List CalcRecord)
    (wantsJson logExists : Bool) (t : String) (layer substance : Int)
    (totim : ℚ) (heads drawdown conc : Reader) :
    (calculation_details cid cfg registry wantsJson logExists
        = .notFound cid ↔ cfg = false) ∧
    (get_results_head_drawdown cid cfg t layer totim heads drawdown
        = .notFoundCalc cid ↔ cfg = false) ∧
    (get_results_concentration cid cfg substance layer totim conc
        = .notFoundCalc cid ↔ cfg = false) := by
  refine ⟨?_, ?_, ?_⟩
  · cases cfg
    · simp [calculation_details]
    · have hne : calculation_details cid true registry wantsJson logExists
          ≠ .notFound cid := by
        unfold calculation_details get_calculation_details_json
        rw [if_neg (by decide : ¬((!true) = true))]
        split_ifs <;> try simp
        rcases hfind : get_calculation_by_id registry cid with _ | r <;>
          simp [hfind]
      simp [hne]
  · cases cfg
    · simp [get_results_head_drawdown]
    · have hne : get_results_head_drawdown cid true t layer totim heads
          drawdown ≠ .notFoundCalc cid := by
        unfold get_results_head_drawdown
        rw [if_neg (by decide : ¬((!true) = true))]
        split_ifs <;> simp
      simp [hne]
  · cases cfg
    · simp [get_results_concentration]
    · have hne : get_results_concentration cid true substance layer totim
          conc ≠ .notFoundCalc cid := by
        unfold get_results_concentration
        rw [if_neg (by decide : ¬((!true) = true))]
        split_ifs <;> simp
      simp [hne]
